import Mathlib

/-!
Verification of the resilient fetch pipeline of the google-search MCP server.

The definitions below are a shallow embedding of the TypeScript sources:
  * `src/unnamed/part_000` (the Express app: `/search` handler, tiered cache,
    circuit-breaker wiring, rate-limit middleware, `createApp`),
  * `src/config.ts` (environment schema with defaults),
  * `src/mcp-server.ts` (the MCP call-tool handler).
Stateful code is modelled by explicit state passing; the outcomes of external
effects (Redis operations, upstream HTTP calls through the circuit breaker)
are passed in as explicit parameters so every interleaving of outcomes can be
quantified over.  JSON payloads are modelled by a small inductive `Json`;
store-side serialization (`JSON.stringify` / `JSON.parse` round-trip on the
Redis tier) is transparent, so the Redis tier stores `Json` values directly.
-/

namespace GSMcp

/-- JSON-serializable payloads (upstream responses, cache values). -/
inductive Json where
  | str : String → Json
  | num : Int → Json
  | bool : Bool → Json
  | null : Json
  | arr : List Json → Json
  | obj : List (String × Json) → Json

/-- Configuration object, from `src/config.ts` (`const config = { ... }`). -/
structure Config where
  GOOGLE_API_KEY : String
  GOOGLE_CSE_ID : String
  CACHE_TTL : Nat
  RATE_LIMIT_WINDOW_MS : Nat
  RATE_LIMIT_MAX : Nat
  CB_TIMEOUT_MS : Nat
  CB_ERROR_THRESHOLD : Nat
  CB_RESET_TIMEOUT_MS : Nat
  LRU_CACHE_SIZE : Nat
deriving DecidableEq, Repr

/-- `src/unnamed/part_000` line 289: the recognized filter names, in their
source order (the order in which `params` is populated). -/
def VALID_FILTERS : List String :=
  ["searchType", "fileType", "siteSearch", "dateRestrict", "safe",
   "exactTerms", "excludeTerms", "sort", "gl", "hl", "num", "start"]

/-- First-match lookup in an association list, the access `req.query[f]`
on the (duplicate-free) Express query object. -/
def lookupStr (l : List (String × String)) (k : String) : Option String :=
  match l with
  | [] => none
  | (k', v) :: rest => if k' = k then some v else lookupStr rest k

/-- `src/unnamed/part_000` lines 322-323: `params` starts as
`{ key, cx, q }` and then receives each recognized filter present in the
request query, in `VALID_FILTERS` order (JS object insertion order). -/
def buildParams (cfg : Config) (q : String) (query : List (String × String)) :
    List (String × String) :=
  [("key", cfg.GOOGLE_API_KEY), ("cx", cfg.GOOGLE_CSE_ID), ("q", q)] ++
    VALID_FILTERS.filterMap (fun f => (lookupStr query f).map (fun v => (f, v)))

/-- JSON string escaping for `JSON.stringify` (quote and backslash). -/
def jsonEscape (s : String) : String :=
  String.join (s.data.map (fun c =>
    if c = '"' then "\\\"" else if c = '\\' then "\\\\" else String.singleton c))

/-- `JSON.stringify` of a `Record<string, string>`, serializing properties in
insertion order. -/
def stringifyStrObj (ps : List (String × String)) : String :=
  "\x7b" ++ String.intercalate ","
      (ps.map (fun p => "\"" ++ jsonEscape p.1 ++ "\":\"" ++ jsonEscape p.2 ++ "\""))
    ++ "\x7d"

/-- `src/unnamed/part_000` line 324:
`const cacheKey = ` the literal `search:` followed by `JSON.stringify(params)`. -/
def cacheKey (cfg : Config) (q : String) (query : List (String × String)) : String :=
  "search:" ++ stringifyStrObj (buildParams cfg q query)

/-- JavaScript truthiness of a JSON value (the `if (lru)` test on line 335). -/
def Json.truthy : Json → Bool
  | .null => false
  | .bool b => b
  | .num n => n != 0
  | .str s => s != ""
  | .arr _ => true
  | .obj _ => true

/-! ### Fallback tier: the in-process LRU cache

`src/unnamed/part_000` line 43: `new LRUCache({ max: config.LRU_CACHE_SIZE })`
— a capacity-bounded `lru-cache` instance constructed with no `ttl` option,
so its entries carry no time-based expiry.  The library semantics modelled:
`get` returns `undefined` for absent or stale entries (an entry is stale only
when it has a ttl and the ttl has elapsed) and makes a found entry most
recently used; `set` inserts/overwrites as most recently used, evicting the
least recently used entry when the capacity is exceeded. -/

structure LruEntry where
  value : Json
  insertedAt : Nat
  ttl : Option Nat

/-- Entries listed most-recently-used first. -/
structure LruCache where
  max : Nat
  defaultTTL : Option Nat
  entries : List (String × LruEntry)

/-- The cache instance of line 43: capacity `LRU_CACHE_SIZE`, no ttl. -/
def mkLruCache (cfg : Config) : LruCache :=
  { max := cfg.LRU_CACHE_SIZE, defaultTTL := none, entries := [] }

def LruCache.removeKey (c : List (String × LruEntry)) (k : String) :
    List (String × LruEntry) :=
  c.filter (fun p => p.1 != k)

/-- An entry is stale when its ttl (if any) has elapsed. -/
def LruEntry.isStale (e : LruEntry) (now : Nat) : Bool :=
  match e.ttl with
  | none => false
  | some t => decide (e.insertedAt + t < now)

/-- `lruCache.get(k)`: returns the value (refreshing recency) unless the
entry is absent or stale; a stale entry is dropped. -/
def LruCache.get (c : LruCache) (k : String) (now : Nat) :
    Option Json × LruCache :=
  match c.entries.find? (fun p => p.1 == k) with
  | none => (none, c)
  | some (_, e) =>
    if e.isStale now then
      (none, { c with entries := LruCache.removeKey c.entries k })
    else
      (some e.value, { c with entries := (k, e) :: LruCache.removeKey c.entries k })

/-- `lruCache.set(k, v)` (no per-call ttl is ever passed in `part_000`):
insert as most recently used with the cache's default ttl, trimming to
capacity (evicting least-recently-used entries). -/
def LruCache.set (c : LruCache) (k : String) (v : Json) (now : Nat) : LruCache :=
  { c with entries :=
      (((k, ⟨v, now, c.defaultTTL⟩) : String × LruEntry) ::
        LruCache.removeKey c.entries k).take c.max }

/-! ### Primary tier: the Redis store

Store-side `EX` expiry is authoritative: `set` records an absolute expiry
`now + ttl` and `get` never returns an expired entry. -/

structure RedisEntry where
  value : Json
  expiresAt : Nat

/-- Redis contents, plus the per-operation failure flags supplied by each
request (a flag models the corresponding `await redisClient.…` rejecting). -/
abbrev RedisStore := List (String × RedisEntry)

def redisGet (s : RedisStore) (k : String) (now : Nat) : Option Json :=
  match s.find? (fun p => p.1 == k) with
  | none => none
  | some (_, e) => if now < e.expiresAt then some e.value else none

def redisSet (s : RedisStore) (k : String) (v : Json) (ttl : Nat) (now : Nat) :
    RedisStore :=
  (k, ⟨v, now + ttl⟩) :: s.filter (fun p => p.1 != k)

/-! ### The `/search` handler (part_000 lines 319-339)

Mutable module state: the `cacheEnabled` flag (line 42, set to `false` by
`createApp` when the startup Redis connection fails and never written again),
the Redis store, and the LRU cache.  The outcomes of the request's external
effects are explicit parameters:
  * `redisGetFails` — the `await redisClient.get(cacheKey)` on line 327
    rejects (swallowed by the `catch \x7b \x7d` on line 332);
  * `fire` — the outcome of `await searchBreaker.fire(params)` on line 336
    (`.error msg` is the rejection the caller of `fire` observes);
  * `redisSetFail` — when `some msg`, the `await redisClient.set(...)` on
    line 337 rejects with message `msg`; this await is NOT inside any
    try/catch, so `wrapAsync` forwards the rejection to `errorHandler`,
    which sends an error response instead of the payload.
A cache hit sends the response and then starts a detached async refresh;
the handler therefore returns the pending refresh, which `applyRefresh`
executes with its own effect outcomes. -/

structure AppState where
  cacheEnabled : Bool
  redis : RedisStore
  lru : LruCache

/-- What the handler sends to the client: `res.json(payload)` on success, or
the `errorHandler` 500 JSON body when a rejection escapes `wrapAsync`. -/
inductive Response where
  | ok (payload : Json)
  | serverError (message : String)

/-- A pending background refresh: the detached async closure spawned on a
cache hit (line 329 for a primary-tier hit, line 335 for an LRU hit). -/
inductive Refresh where
  | toRedis (key : String) (params : List (String × String))
  | toLru (key : String) (params : List (String × String))

/-- Primary-cache operations issued by the pipeline (for stating that the
degraded pipeline never touches the primary store). -/
inductive RedisOp where
  | opGet (key : String)
  | opSet (key : String)

structure HandlerResult where
  response : Response
  state : AppState
  refresh : Option Refresh
  redisOps : List RedisOp

/-- Lines 336-338: the synchronous miss path of the `/search` handler. -/
def searchMiss (cfg : Config) (st : AppState) (key : String)
    (fire : Except String Json) (redisSetFail : Option String) (now : Nat)
    (getOps : List RedisOp) : HandlerResult :=
  match fire with
  | .error msg =>
    -- the rejection of `searchBreaker.fire` escapes to `errorHandler`
    { response := .serverError msg, state := st, refresh := none,
      redisOps := getOps }
  | .ok data =>
    if st.cacheEnabled then
      match redisSetFail with
      | some msg =>
        -- line 337's un-guarded `await redisClient.set` rejected:
        -- `res.json` is never reached, `errorHandler` answers instead
        { response := .serverError msg, state := st, refresh := none,
          redisOps := getOps ++ [.opSet key] }
      | none =>
        { response := .ok data,
          state := { st with
            redis := redisSet st.redis key data cfg.CACHE_TTL now },
          refresh := none, redisOps := getOps ++ [.opSet key] }
    else
      { response := .ok data,
        state := { st with lru := st.lru.set key data now },
        refresh := none, redisOps := getOps }

/-- The body of `app.get('/search', ...)` after validation, lines 320-338. -/
def searchHandler (cfg : Config) (st : AppState) (q : String)
    (query : List (String × String)) (redisGetFails : Bool)
    (fire : Except String Json) (redisSetFail : Option String) (now : Nat) :
    HandlerResult :=
  let params := buildParams cfg q query
  let key := cacheKey cfg q query
  -- lines 325-333: primary-tier lookup (only when the cache is enabled);
  -- a rejected get is swallowed and control falls through to the LRU tier.
  let primaryHit : Option Json :=
    if st.cacheEnabled && !redisGetFails then redisGet st.redis key now else none
  -- the get on line 327 is issued whenever cacheEnabled holds
  let getOps : List RedisOp := if st.cacheEnabled then [.opGet key] else []
  match primaryHit with
  | some cached =>
    -- line 328: respond with the cached value, schedule the refresh, return
    { response := .ok cached, state := st,
      refresh := some (.toRedis key params), redisOps := getOps }
  | none =>
    -- line 334: fallback LRU lookup (get refreshes recency)
    let lruRes := st.lru.get key now
    let stLru : AppState := { st with lru := lruRes.2 }
    match lruRes.1 with
    | some lru =>
      if lru.truthy then
        -- line 335: respond with the LRU value, schedule the refresh
        { response := .ok lru, state := stLru,
          refresh := some (.toLru key params), redisOps := getOps }
      else
        searchMiss cfg stLru key fire redisSetFail now getOps
    | none =>
      searchMiss cfg stLru key fire redisSetFail now getOps

/-- The detached refresh closure (line 329 / line 335): any rejection —
upstream failure, circuit-open, timeout, or a failing cache write — is
swallowed by its `catch \x7b \x7d`; on success the cache entry is
overwritten. -/
def applyRefresh (cfg : Config) (st : AppState) (r : Refresh)
    (fire : Except String Json) (redisSetFails : Bool) (now : Nat) :
    AppState × List RedisOp :=
  match r, fire with
  | _, .error _ => (st, [])
  | .toRedis key _, .ok data =>
    if redisSetFails then (st, [.opSet key])
    else ({ st with redis := redisSet st.redis key data cfg.CACHE_TTL now },
          [.opSet key])
  | .toLru key _, .ok data => ({ st with lru := st.lru.set key data now }, [])

/-- `createApp` (lines 345-347): the startup Redis connection attempt is the
only place `cacheEnabled` is ever written after initialization; on failure it
becomes `false` for the rest of the process lifetime (no reconnection logic
exists anywhere in the source). -/
def createApp (cfg : Config) (connectSucceeds : Bool) : AppState :=
  { cacheEnabled := connectSucceeds, redis := [], lru := mkLruCache cfg }

/-- One request's full effect inputs: the handler's own effects plus those of
the background refresh it may spawn. -/
structure ReqInput where
  q : String
  query : List (String × String)
  redisGetFails : Bool
  fire : Except String Json
  redisSetFail : Option String
  now : Nat
  refreshFire : Except String Json
  refreshSetFails : Bool
  refreshNow : Nat

/-- Run one request and then its background refresh (if one was spawned). -/
def runRequest (cfg : Config) (st : AppState) (i : ReqInput) :
    AppState × Response × List RedisOp :=
  let r := searchHandler cfg st i.q i.query i.redisGetFails i.fire
    i.redisSetFail i.now
  match r.refresh with
  | none => (r.state, r.response, r.redisOps)
  | some rf =>
    let s := applyRefresh cfg r.state rf i.refreshFire i.refreshSetFails
      i.refreshNow
    (s.1, r.response, r.redisOps ++ s.2)

/-- Run a sequence of requests, collecting every primary-cache operation. -/
def runRequests (cfg : Config) (st : AppState) :
    List ReqInput → AppState × List RedisOp
  | [] => (st, [])
  | i :: rest =>
    let s := runRequest cfg st i
    let t := runRequests cfg s.1 rest
    (t.1, s.2.2 ++ t.2)

/-! ### Circuit breaker

Modelled from the spec: the Closed/Open/Half-Open state machine itself lives
in the `opossum` dependency; the repository only constructs it with
`breakerOptions` and registers the fallback (part_000 lines 54-59).  The model
follows spec §4.4 plus the dependency's documented fallback semantics: the
registered fallback runs whenever a call fails — circuit open, per-call
timeout, or the action (the upstream HTTP request) itself erroring — and
`fire` then settles with the fallback's result.  Line 56 registers
`() => Promise.reject(new Error('Google Search unavailable'))`, so every
failed `fire` rejects with that one fixed error.  The rolling window's time
decay is abstracted: outcome counters accumulate within the window. -/

inductive BreakerState where
  | closed (successes failures : Nat)
  | opened (openedAt : Nat)
  | halfOpen
deriving DecidableEq, Repr

/-- Initial state: Closed with clear counters. -/
def initBreaker : BreakerState := .closed 0 0

/-- What the upstream (Google Custom Search) does on a given call. -/
inductive UpstreamOutcome where
  | ok (data : Json)
  | httpError (message : String)
  | timeout

/-- The settlement of one `searchBreaker.fire(params)` call, recording
whether the upstream was contacted at all. -/
structure FireResult where
  contactedUpstream : Bool
  result : Except String Json

/-- Line 56: the message of the single fixed error every failed `fire`
rejects with once the fallback is registered. -/
def fallbackMessage : String := "Google Search unavailable"

/-- Error rate after `s` successes and `f` failures exceeds the configured
threshold percentage: `f / (s + f) * 100 > threshold`. -/
def errorRateExceeded (threshold s f : Nat) : Bool :=
  decide (100 * f > threshold * (s + f))

/-- The Half-Open trial call: success closes the breaker and clears the
counters; failure re-opens it (restarting the reset timer at `now`). -/
def trialCall (now : Nat) (u : UpstreamOutcome) : FireResult × BreakerState :=
  match u with
  | .ok d => (⟨true, .ok d⟩, .closed 0 0)
  | _ => (⟨true, .error fallbackMessage⟩, .opened now)

/-- One `searchBreaker.fire(params)` call at time `now`. -/
def breakerFire (cfg : Config) (st : BreakerState) (now : Nat)
    (u : UpstreamOutcome) : FireResult × BreakerState :=
  match st with
  | .closed s f =>
    match u with
    | .ok d => (⟨true, .ok d⟩, .closed (s + 1) f)
    | _ =>
      -- failure or timeout: the caller sees the fallback's rejection;
      -- the breaker opens when the error rate exceeds the threshold
      (⟨true, .error fallbackMessage⟩,
       if errorRateExceeded cfg.CB_ERROR_THRESHOLD s (f + 1) then .opened now
       else .closed s (f + 1))
  | .opened openedAt =>
    if now < openedAt + cfg.CB_RESET_TIMEOUT_MS then
      -- fail fast: upstream is not contacted
      (⟨false, .error fallbackMessage⟩, .opened openedAt)
    else
      -- reset timeout elapsed: transition to Half-Open; this call is the trial
      trialCall now u
  | .halfOpen => trialCall now u

/-! ### Rate limiter

Modelled from the spec: the fixed-window counter lives in the
`express-rate-limit` dependency; the repository wires it on line 67 with
`windowMs: config.RATE_LIMIT_WINDOW_MS, max: config.RATE_LIMIT_MAX`.
Spec §4.3: a fixed window per client scope; the counter resets when the
window elapses; excess requests are rejected before they reach the
pipeline. -/

structure RateWindow where
  windowStart : Nat
  count : Nat
deriving DecidableEq, Repr

/-- Admission decision for one arrival at `now` given the scope's current
window (`none` when the scope has no window yet). -/
def rateAllow (cfg : Config) (w : Option RateWindow) (now : Nat) :
    Bool × RateWindow :=
  match w with
  | none => (true, ⟨now, 1⟩)
  | some w =>
    if w.windowStart + cfg.RATE_LIMIT_WINDOW_MS ≤ now then
      (true, ⟨now, 1⟩)
    else if w.count < cfg.RATE_LIMIT_MAX then
      (true, ⟨w.windowStart, w.count + 1⟩)
    else
      (false, w)

/-- The rate-limit middleware in front of the `/search` pipeline: a rejected
request never reaches the fetch pipeline (second component `none`). -/
def gatedRequest (cfg : Config) (w : Option RateWindow) (now : Nat)
    (st : AppState) (i : ReqInput) :
    RateWindow × Option (AppState × Response × List RedisOp) :=
  let a := rateAllow cfg w now
  if a.1 then (a.2, some (runRequest cfg st i)) else (a.2, none)

/-- Run a trace of arrivals for one scope, counting admitted requests. -/
def runArrivals (cfg : Config) (w : Option RateWindow) :
    List Nat → Option RateWindow × Nat
  | [] => (w, 0)
  | now :: rest =>
    let a := rateAllow cfg w now
    let t := runArrivals cfg (some a.2) rest
    (t.1, (if a.1 then 1 else 0) + t.2)

/-! ### Environment schema (`src/config.ts`)

`z.coerce.number().default(d)`: an absent variable yields the default; a
present one is numerically coerced (the model covers decimal-digit strings;
a non-numeric value fails validation, upon which the process exits). -/

/-- Decimal value of a digit character. -/
def charDigit? (c : Char) : Option Nat :=
  if 48 ≤ c.toNat ∧ c.toNat ≤ 57 then some (c.toNat - 48) else none

/-- JS `Number` restricted to non-negative decimal strings (`Number('')`
is `0`); any other character makes the coercion fail validation. -/
def digitsToNat? (l : List Char) : Option Nat :=
  l.foldl
    (fun acc c =>
      match acc, charDigit? c with
      | some n, some d => some (n * 10 + d)
      | _, _ => none)
    (some 0)

def coerceNat (s : Option String) (d : Nat) : Option Nat :=
  match s with
  | none => some d
  | some v => digitsToNat? v.data

/-- The numeric environment variables read by `envSchema`. -/
structure EnvInput where
  CACHE_TTL : Option String
  RATE_LIMIT_WINDOW_MS : Option String
  RATE_LIMIT_MAX : Option String
  CB_TIMEOUT_MS : Option String
  CB_ERROR_THRESHOLD : Option String
  CB_RESET_TIMEOUT_MS : Option String
  LRU_CACHE_SIZE : Option String

/-- `envSchema.safeParse(process.env)` followed by the `config` object
construction, with the defaults of `src/config.ts` lines 10-17. -/
def parseEnv (key cx : String) (e : EnvInput) : Option Config := do
  let ttl ← coerceNat e.CACHE_TTL 3600
  let window ← coerceNat e.RATE_LIMIT_WINDOW_MS 60000
  let maxReq ← coerceNat e.RATE_LIMIT_MAX 30
  let cbTimeout ← coerceNat e.CB_TIMEOUT_MS 5000
  let cbThreshold ← coerceNat e.CB_ERROR_THRESHOLD 50
  let cbReset ← coerceNat e.CB_RESET_TIMEOUT_MS 30000
  let lruSize ← coerceNat e.LRU_CACHE_SIZE 500
  pure ⟨key, cx, ttl, window, maxReq, cbTimeout, cbThreshold, cbReset, lruSize⟩

/-! ### MCP call-tool handler (`src/mcp-server.ts` lines 162-186)

The handler outcomes of `handleGoogleSearch` / `handleExtractContent` are
explicit parameters: `.ok content` is the content list of a successful
return (such responses carry no `isError` field, modelled as `false`);
`.error (some m)` is a thrown `Error` with message `m` (including the zod
validation errors the handlers throw); `.error none` is a thrown non-`Error`
value, for which line 175 substitutes the message `Unknown error`. -/

structure ToolContent where
  type : String
  text : String
deriving DecidableEq, Repr

structure CallToolResult where
  content : List ToolContent
  isError : Bool
deriving DecidableEq, Repr

/-- Line 175: `error instanceof Error ? error.message : 'Unknown error'`. -/
def errorMessageOf (e : Option String) : String := e.getD "Unknown error"

/-- The `switch (name)` of lines 166-173: route to the tool handler, or
throw `Unknown tool: <name>` for any other name. -/
def dispatchTool (name : String)
    (searchOutcome extractOutcome : Except (Option String) (List ToolContent)) :
    Except (Option String) (List ToolContent) :=
  if name = "google_search" then searchOutcome
  else if name = "extract_content" then extractOutcome
  else .error (some ("Unknown tool: " ++ name))

/-- The `CallToolRequestSchema` handler: dispatch on the tool name, catch
every thrown error and convert it into an `isError` text result
(lines 174-185). -/
def handleCallTool (name : String)
    (searchOutcome extractOutcome : Except (Option String) (List ToolContent)) :
    CallToolResult :=
  match dispatchTool name searchOutcome extractOutcome with
  | .ok c => { content := c, isError := false }
  | .error e =>
    { content := [⟨"text", "Error: " ++ errorMessageOf e⟩], isError := true }

/-! ## Shared lemmas about the cache tiers -/

theorem redisGet_redisSet_self (s : RedisStore) (k : String) (v : Json)
    (ttl now now' : Nat) (h : now' < now + ttl) :
    redisGet (redisSet s k v ttl now) k now' = some v := by
  unfold redisGet redisSet
  rw [List.find?_cons_of_pos _ (by simp)]
  simp [h]

theorem lruGet_set_self (c : LruCache) (k : String) (v : Json)
    (now now' : Nat) (hmax : 0 < c.max) (httl : c.defaultTTL = none) :
    ((c.set k v now).get k now').1 = some v := by
  obtain ⟨m, hm⟩ : ∃ m, c.max = m + 1 := ⟨c.max - 1, by omega⟩
  unfold LruCache.set LruCache.get
  simp only [hm, List.take_succ_cons]
  rw [List.find?_cons_of_pos _ (by simp)]
  simp [LruEntry.isStale, httl]

theorem lruGet_time_indep (c : LruCache) (k : String) (now now' : Nat)
    (h : ∀ e ∈ c.entries, e.2.ttl = none) :
    (c.get k now).1 = (c.get k now').1 := by
  unfold LruCache.get
  cases hf : c.entries.find? (fun p => p.1 == k) with
  | none => simp
  | some pe =>
    have hmem := List.mem_of_find?_eq_some hf
    have hnone := h pe hmem
    simp [LruEntry.isStale, hnone]

theorem lru_set_preserves_noTTL (c : LruCache) (k : String) (v : Json)
    (now : Nat) (h : ∀ e ∈ c.entries, e.2.ttl = none)
    (httl : c.defaultTTL = none) :
    ∀ e ∈ (c.set k v now).entries, e.2.ttl = none := by
  unfold LruCache.set LruCache.removeKey
  intro e he
  have he' := List.mem_of_mem_take he
  rcases List.mem_cons.mp he' with rfl | hmem
  · exact httl
  · exact h e (List.mem_of_mem_filter hmem)

theorem lru_get_preserves_noTTL (c : LruCache) (k : String) (now : Nat)
    (h : ∀ e ∈ c.entries, e.2.ttl = none) :
    ∀ e ∈ ((c.get k now).2).entries, e.2.ttl = none := by
  unfold LruCache.get LruCache.removeKey
  cases hf : c.entries.find? (fun p => p.1 == k) with
  | none => simpa using h
  | some pe =>
    have hmem := List.mem_of_find?_eq_some hf
    have hnone := h pe hmem
    simp only [LruEntry.isStale, hnone]
    intro e he
    rcases List.mem_cons.mp he with rfl | hmem'
    · exact hnone
    · exact h e (List.mem_of_mem_filter hmem')

/-! ## Sample configuration and payloads for concrete evaluations -/

/-- The all-defaults configuration (`src/config.ts`). -/
def cfg0 : Config :=
  ⟨"test-key", "test-cx", 3600, 60000, 30, 5000, 50, 30000, 500⟩

/-- A sample upstream payload, `{items:["test"]}`. -/
def payload0 : Json := .obj [("items", .arr [.str "test"])]

/-- A sample request with every external effect succeeding. -/
def req0 : ReqInput :=
  ⟨"weather today", [], false, .ok payload0, none, 0, .ok payload0, false, 0⟩

/-! ## Claims C1-C10 -/

/-- C3: for every non-empty query string `q` and every two request-parameter
maps that contain the same recognized filter name/value pairs — in any
order, possibly with extra unrecognized keys — the pipeline derives the same
cache key; unrecognized parameters never influence the key.  (The key is
built by consulting only the recognized filter names, in the fixed
`VALID_FILTERS` order, so it depends only on the maps' values at those
names.) -/
theorem c3_cacheKey_deterministic (cfg : Config) (q : String)
    (query1 query2 : List (String × String)) (_hq : q ≠ "")
    (h : ∀ f ∈ VALID_FILTERS, lookupStr query1 f = lookupStr query2 f) :
    cacheKey cfg q query1 = cacheKey cfg q query2 := by
  unfold cacheKey buildParams
  rw [List.filterMap_congr (fun f hf => by rw [h f hf])]

/-- Witness for C3 at concrete inputs: two query maps with the same
recognized pairs in different order, each with a distinct unrecognized
key. -/
theorem c3_witness :
    ("weather today" ≠ "" ∧
      ∀ f ∈ VALID_FILTERS,
        lookupStr [("num", "5"), ("junk", "x"), ("safe", "off")] f =
        lookupStr [("safe", "off"), ("extra", "y"), ("num", "5")] f) ∧
    cacheKey cfg0 "weather today" [("num", "5"), ("junk", "x"), ("safe", "off")] =
    cacheKey cfg0 "weather today" [("safe", "off"), ("extra", "y"), ("num", "5")] :=
  ⟨⟨by decide, by decide⟩,
    c3_cacheKey_deterministic cfg0 "weather today" _ _ (by decide) (by decide)⟩

/-- C10: the MCP call-tool handler always returns a result (it is a total
function of the dispatch outcome) and converts every thrown error — a tool
handler's thrown error (including argument-validation failures) and unknown
tool names alike — into a result whose content is a single text message
beginning `Error: ` and whose `isError` flag is true. -/
theorem c10_callTool_catches_all (name : String)
    (s e : Except (Option String) (List ToolContent)) :
    (name ≠ "google_search" → name ≠ "extract_content" →
      handleCallTool name s e =
        ⟨[⟨"text", "Error: " ++ ("Unknown tool: " ++ name)⟩], true⟩) ∧
    (∀ m, handleCallTool "google_search" (.error m) e =
        ⟨[⟨"text", "Error: " ++ errorMessageOf m⟩], true⟩) ∧
    (∀ m, handleCallTool "extract_content" s (.error m) =
        ⟨[⟨"text", "Error: " ++ errorMessageOf m⟩], true⟩) ∧
    ((handleCallTool name s e).isError = true →
      ∃ m, (handleCallTool name s e).content = [⟨"text", "Error: " ++ m⟩]) := by
  refine ⟨?_, fun m => rfl, fun m => rfl, ?_⟩
  · intro h1 h2
    have hd : dispatchTool name s e = .error (some ("Unknown tool: " ++ name)) := by
      unfold dispatchTool
      rw [if_neg h1, if_neg h2]
    unfold handleCallTool
    rw [hd]
    rfl
  · intro hisErr
    unfold handleCallTool at hisErr ⊢
    cases hd : dispatchTool name s e with
    | ok c => rw [hd] at hisErr; simp at hisErr
    | error m => rw [hd] at hisErr; exact ⟨errorMessageOf m, rfl⟩

/-- Witness for C10: an unknown tool name and a validation failure both
yield the `Error: `-prefixed, `isError` result. -/
theorem c10_witness :
    handleCallTool "bogus_tool" (.ok [⟨"text", "hi"⟩]) (.ok []) =
      ⟨[⟨"text", "Error: " ++ ("Unknown tool: " ++ "bogus_tool")⟩], true⟩ ∧
    handleCallTool "google_search"
        (.error (some "Expected string, received number")) (.ok []) =
      ⟨[⟨"text", "Error: " ++ errorMessageOf (some "Expected string, received number")⟩], true⟩ :=
  ⟨(c10_callTool_catches_all "bogus_tool" (.ok [⟨"text", "hi"⟩]) (.ok [])).1
      (by decide) (by decide),
    (c10_callTool_catches_all "google_search"
      (.error (some "Expected string, received number")) (.ok [])).2.1
      (some "Expected string, received number")⟩

/-- C9: entries in the fallback (in-process LRU) tier carry no time-based
expiry: the instance of line 43 is constructed without a `ttl` option, so
once an entry is written, a `get` returns the stored value at every later
time — in particular at times beyond `CACHE_TTL` — until the entry is
displaced by capacity-driven LRU eviction (the store is trimmed to `max`
entries, never by a clock).  Conjuncts: the line-43 instance has no default
ttl; a written entry is readable at every time; reads are time-independent
on every no-ttl state; `set` and `get` preserve the no-ttl invariant (so it
holds in every reachable state); the store never exceeds its capacity. -/
theorem c9_lru_no_time_expiry (cfg : Config) (c : LruCache) (k k2 : String)
    (v : Json) (now now2 t t2 : Nat)
    (hmax : 0 < c.max) (httl : c.defaultTTL = none)
    (hinv : ∀ e ∈ c.entries, e.2.ttl = none) :
    (mkLruCache cfg).defaultTTL = none ∧
    ((c.set k v now).get k t).1 = some v ∧
    (c.get k2 t).1 = (c.get k2 t2).1 ∧
    (∀ e ∈ (c.set k v now).entries, e.2.ttl = none) ∧
    (∀ e ∈ ((c.get k2 now2).2).entries, e.2.ttl = none) ∧
    (c.set k v now).entries.length ≤ c.max := by
  refine ⟨rfl, lruGet_set_self c k v now t hmax httl,
    lruGet_time_indep c k2 t t2 hinv,
    lru_set_preserves_noTTL c k v now hinv httl,
    lru_get_preserves_noTTL c k2 now2 hinv, ?_⟩
  unfold LruCache.set
  exact List.length_take_le c.max _

/-- Witness for C9: a value written to the default LRU instance at time 0 is
still returned far beyond the default `CACHE_TTL` of 3600. -/
theorem c9_witness :
    (((mkLruCache cfg0).set "search:k" payload0 0).get "search:k" 999999999).1 =
      some payload0 :=
  (c9_lru_no_time_expiry cfg0 (mkLruCache cfg0) "search:k" "other" payload0 0 0
    999999999 0 (by decide) rfl (by simp [mkLruCache])).2.1

/-- C4: the circuit breaker wrapping all upstream calls follows the
Closed/Open/Half-Open state machine: it starts Closed; a failure that pushes
the rolling error rate above `CB_ERROR_THRESHOLD` percent transitions it to
Open; while Open (reset timeout not yet elapsed) every call fails
immediately without contacting upstream and the state is unchanged; once
`CB_RESET_TIMEOUT_MS` has elapsed, the next call is the single Half-Open
trial — it contacts upstream, success returns the breaker to Closed with
cleared counters, failure (error or timeout) returns it to Open; a
Half-Open breaker never remains Half-Open after a call, so exactly one
trial is permitted. -/
theorem c4_breaker_state_machine (cfg : Config) (s f t now : Nat)
    (u : UpstreamOutcome) (d : Json) (m : String) :
    initBreaker = .closed 0 0 ∧
    breakerFire cfg (.closed s f) now (.ok d) = (⟨true, .ok d⟩, .closed (s + 1) f) ∧
    (errorRateExceeded cfg.CB_ERROR_THRESHOLD s (f + 1) = true →
      (breakerFire cfg (.closed s f) now .timeout).2 = .opened now ∧
      (breakerFire cfg (.closed s f) now (.httpError m)).2 = .opened now) ∧
    (now < t + cfg.CB_RESET_TIMEOUT_MS →
      breakerFire cfg (.opened t) now u = (⟨false, .error fallbackMessage⟩, .opened t)) ∧
    (t + cfg.CB_RESET_TIMEOUT_MS ≤ now →
      (breakerFire cfg (.opened t) now u).1.contactedUpstream = true ∧
      breakerFire cfg (.opened t) now (.ok d) = (⟨true, .ok d⟩, .closed 0 0) ∧
      (breakerFire cfg (.opened t) now .timeout).2 = .opened now ∧
      (breakerFire cfg (.opened t) now (.httpError m)).2 = .opened now) ∧
    (breakerFire cfg .halfOpen now u).2 ≠ .halfOpen := by
  refine ⟨rfl, rfl, ?_, ?_, ?_, ?_⟩
  · intro h
    exact ⟨by simp [breakerFire, h], by simp [breakerFire, h]⟩
  · intro h
    simp [breakerFire, h]
  · intro h
    have hn : ¬ now < t + cfg.CB_RESET_TIMEOUT_MS := by omega
    refine ⟨?_, by simp [breakerFire, hn, trialCall],
      by simp [breakerFire, hn, trialCall], by simp [breakerFire, hn, trialCall]⟩
    cases u <;> simp [breakerFire, hn, trialCall]
  · cases u <;> simp [breakerFire, trialCall]

/-- Witness for C4 at the default configuration: one failure out of one call
(100% > 50%) opens the breaker; at time 5 the open breaker fails fast; at
time 30000 the trial is permitted and a success closes the breaker. -/
theorem c4_witness :
    (errorRateExceeded cfg0.CB_ERROR_THRESHOLD 0 1 = true ∧
      (breakerFire cfg0 (.closed 0 0) 0 .timeout).2 = .opened 0) ∧
    (5 < 0 + cfg0.CB_RESET_TIMEOUT_MS ∧
      breakerFire cfg0 (.opened 0) 5 .timeout =
        (⟨false, .error fallbackMessage⟩, .opened 0)) ∧
    (0 + cfg0.CB_RESET_TIMEOUT_MS ≤ 30000 ∧
      breakerFire cfg0 (.opened 0) 30000 (.ok payload0) =
        (⟨true, .ok payload0⟩, .closed 0 0)) :=
  ⟨⟨by decide,
     ((c4_breaker_state_machine cfg0 0 0 0 0 .timeout payload0 "m").2.2.1
       (by decide)).1⟩,
   ⟨by decide,
     (c4_breaker_state_machine cfg0 0 0 0 5 .timeout payload0 "m").2.2.2.1
       (by decide)⟩,
   ⟨by decide,
     ((c4_breaker_state_machine cfg0 0 0 0 30000 (.ok payload0) payload0 "m").2.2.2.2.1
       (by decide)).2.1⟩⟩

/-- C5 counterexample: with the fallback of line 56 registered, a call
rejected because the circuit is Open settles with exactly the same error
value as a call whose failure is reported by the upstream API itself, so
the two are not distinguishable.  (The first call does not contact
upstream — a pure circuit-open rejection; the second does and the upstream
reports an error.) -/
theorem c5_counterexample :
    (breakerFire cfg0 (.opened 0) 5 (.ok payload0)).1.result =
      (breakerFire cfg0 (.closed 0 0) 5
        (.httpError "Daily Limit Exceeded")).1.result ∧
    (breakerFire cfg0 (.opened 0) 5 (.ok payload0)).1.contactedUpstream = false ∧
    (breakerFire cfg0 (.closed 0 0) 5
        (.httpError "Daily Limit Exceeded")).1.contactedUpstream = true :=
  ⟨rfl, rfl, rfl⟩

/-- C5 amended: whenever the breaker rejects a call because it is Open or
because the per-call timeout fired, the caller receives the one fixed
fallback error (`Google Search unavailable`); however, the registered
fallback also replaces upstream-reported errors with that same error, so
infrastructure self-protection is NOT distinguishable from genuine upstream
failure in the error the caller receives. -/
theorem c5_amended_fallback_error (cfg : Config) (s f t now : Nat)
    (m : String) (u : UpstreamOutcome) :
    (now < t + cfg.CB_RESET_TIMEOUT_MS →
      (breakerFire cfg (.opened t) now u).1.result = .error fallbackMessage) ∧
    (breakerFire cfg (.closed s f) now .timeout).1.result = .error fallbackMessage ∧
    (breakerFire cfg (.closed s f) now (.httpError m)).1.result =
      .error fallbackMessage := by
  refine ⟨?_, rfl, rfl⟩
  intro h
  simp [breakerFire, h]

/-- Witness for C5's amended claim: a circuit-open rejection within the
reset window carries the fixed fallback error. -/
theorem c5_witness :
    (5 < 0 + cfg0.CB_RESET_TIMEOUT_MS) ∧
    (breakerFire cfg0 (.opened 0) 5 .timeout).1.result =
      .error fallbackMessage :=
  ⟨by decide,
    (c5_amended_fallback_error cfg0 0 0 0 5 "m" .timeout).1 (by decide)⟩

/-- Arrivals that all fall inside the current fixed window can add at most
`RATE_LIMIT_MAX - count` admissions to a window that already counts
`count`. -/
theorem runArrivals_window_bound (cfg : Config) (start : Nat)
    (ts : List Nat) (c : Nat)
    (h : ∀ x ∈ ts, x < start + cfg.RATE_LIMIT_WINDOW_MS) :
    (runArrivals cfg (some ⟨start, c⟩) ts).2 ≤ cfg.RATE_LIMIT_MAX - c := by
  induction ts generalizing c with
  | nil => simp [runArrivals]
  | cons x rest ih =>
    have hx := h x (List.mem_cons_self x rest)
    have hrest : ∀ y ∈ rest, y < start + cfg.RATE_LIMIT_WINDOW_MS :=
      fun y hy => h y (List.mem_cons_of_mem x hy)
    have hne : ¬ start + cfg.RATE_LIMIT_WINDOW_MS ≤ x := by omega
    by_cases hc : c < cfg.RATE_LIMIT_MAX
    · have := ih (c + 1) hrest
      simp [runArrivals, rateAllow, hne, hc]
      omega
    · have := ih c hrest
      simp [runArrivals, rateAllow, hne, hc]
      omega

/-- C8: the rate limiter admits at most `RATE_LIMIT_MAX` requests per client
scope within each fixed window of `RATE_LIMIT_WINDOW_MS`; a request
arriving once the limit is reached in the current window is rejected
before it reaches the fetch pipeline; the count resets when the window
elapses; and both values are configurable, defaulting to 30 and 60000 ms
(`src/config.ts` lines 12-13). -/
theorem c8_rate_limit (cfg : Config) (w : RateWindow) (now t0 : Nat)
    (ts : List Nat) (st : AppState) (i : ReqInput) :
    (parseEnv "k" "c" ⟨none, none, none, none, none, none, none⟩).map
        (fun c => (c.RATE_LIMIT_WINDOW_MS, c.RATE_LIMIT_MAX)) =
      some (60000, 30) ∧
    (parseEnv "k" "c" ⟨none, some "120000", some "50", none, none, none, none⟩).map
        (fun c => (c.RATE_LIMIT_WINDOW_MS, c.RATE_LIMIT_MAX)) =
      some (120000, 50) ∧
    (0 < cfg.RATE_LIMIT_MAX →
      (∀ x ∈ ts, x < t0 + cfg.RATE_LIMIT_WINDOW_MS) →
      (runArrivals cfg none (t0 :: ts)).2 ≤ cfg.RATE_LIMIT_MAX) ∧
    (w.windowStart + cfg.RATE_LIMIT_WINDOW_MS ≤ now →
      rateAllow cfg (some w) now = (true, ⟨now, 1⟩)) ∧
    (¬ w.windowStart + cfg.RATE_LIMIT_WINDOW_MS ≤ now →
      cfg.RATE_LIMIT_MAX ≤ w.count →
      gatedRequest cfg (some w) now st i = (w, none)) := by
  refine ⟨by decide, by decide, ?_, ?_, ?_⟩
  · intro hmax hts
    have hb := runArrivals_window_bound cfg t0 ts 1 hts
    simp [runArrivals, rateAllow]
    omega
  · intro h
    simp [rateAllow, h]
  · intro h1 h2
    have hc : ¬ w.count < cfg.RATE_LIMIT_MAX := by omega
    simp [gatedRequest, rateAllow, if_neg h1, if_neg hc]

/-- Witness for C8 at the default configuration: 41 arrivals inside one
60-second window admit at most 30 requests; a request in a full window is
rejected without invoking the pipeline; the first request of the next
window is admitted with a fresh count. -/
theorem c8_witness :
    (runArrivals cfg0 none (0 :: List.replicate 40 1)).2 ≤ cfg0.RATE_LIMIT_MAX ∧
    rateAllow cfg0 (some ⟨0, 7⟩) 60000 = (true, ⟨60000, 1⟩) ∧
    gatedRequest cfg0 (some ⟨0, 30⟩) 5 (createApp cfg0 true) req0 =
      (⟨0, 30⟩, none) :=
  ⟨(c8_rate_limit cfg0 ⟨0, 7⟩ 60000 0 (List.replicate 40 1)
      (createApp cfg0 true) req0).2.2.1 (by decide) (by decide),
   (c8_rate_limit cfg0 ⟨0, 7⟩ 60000 0 [] (createApp cfg0 true) req0).2.2.2.1
     (by decide),
   (c8_rate_limit cfg0 ⟨0, 30⟩ 5 0 [] (createApp cfg0 true) req0).2.2.2.2
     (by decide) (by decide)⟩

/-- C1: on a cache hit in either tier the handler responds with the cached
value at once — the response and the post-response state are independent of
the synchronous-fire and miss-path-set effect parameters, which the hit
paths never consult — and schedules a detached refresh.  Whatever the
refresh's outcome, the original caller's response (already returned above)
is unaffected: a failed refresh (upstream error, circuit-open, timeout, or
a failing cache write) leaves the state — in particular the stale entry —
exactly in place, and a successful refresh overwrites the entry with the
refreshed value. -/
theorem c1_hit_stale_while_revalidate (cfg : Config) (st : AppState)
    (q : String) (query : List (String × String)) (now : Nat) :
    (∀ fire sf cached, st.cacheEnabled = true →
      redisGet st.redis (cacheKey cfg q query) now = some cached →
      searchHandler cfg st q query false fire sf now =
        ⟨.ok cached, st,
          some (.toRedis (cacheKey cfg q query) (buildParams cfg q query)),
          [.opGet (cacheKey cfg q query)]⟩) ∧
    (∀ fire sf lruv,
      (st.cacheEnabled = false ∨
        redisGet st.redis (cacheKey cfg q query) now = none) →
      (st.lru.get (cacheKey cfg q query) now).1 = some lruv →
      lruv.truthy = true →
      searchHandler cfg st q query false fire sf now =
        ⟨.ok lruv, { st with lru := (st.lru.get (cacheKey cfg q query) now).2 },
          some (.toLru (cacheKey cfg q query) (buildParams cfg q query)),
          if st.cacheEnabled then [.opGet (cacheKey cfg q query)] else []⟩) ∧
    (∀ key params msg sf now2,
      applyRefresh cfg st (.toRedis key params) (.error msg) sf now2 = (st, []) ∧
      applyRefresh cfg st (.toLru key params) (.error msg) sf now2 = (st, [])) ∧
    (∀ key params d now2,
      applyRefresh cfg st (.toRedis key params) (.ok d) true now2 =
        (st, [.opSet key]) ∧
      (applyRefresh cfg st (.toRedis key params) (.ok d) false now2).1.redis =
        redisSet st.redis key d cfg.CACHE_TTL now2 ∧
      (applyRefresh cfg st (.toLru key params) (.ok d) false now2).1.lru =
        st.lru.set key d now2) ∧
    (∀ key d now2 now3, now3 < now2 + cfg.CACHE_TTL →
      redisGet (redisSet st.redis key d cfg.CACHE_TTL now2) key now3 = some d) ∧
    (∀ key d now2 now3, 0 < st.lru.max → st.lru.defaultTTL = none →
      ((st.lru.set key d now2).get key now3).1 = some d) := by
  refine ⟨?_, ?_, fun key params msg sf now2 => ⟨rfl, rfl⟩,
    fun key params d now2 => ⟨rfl, rfl, rfl⟩,
    fun key d now2 now3 h => redisGet_redisSet_self st.redis key d _ now2 now3 h,
    fun key d now2 now3 hm ht => lruGet_set_self st.lru key d now2 now3 hm ht⟩
  · intro fire sf cached hen hred
    simp [searchHandler, hen, hred]
  · intro fire sf lruv hdis hlru htr
    rcases hdis with hen | hred
    · simp [searchHandler, hen, hlru, htr]
    · cases hce : st.cacheEnabled with
      | false => simp [searchHandler, hce, hlru, htr]
      | true => simp [searchHandler, hce, hred, hlru, htr]

/-- A state whose primary tier holds an entry for the witness request. -/
def stHit : AppState :=
  { cacheEnabled := true,
    redis := [(cacheKey cfg0 "weather today" [], ⟨payload0, 100⟩)],
    lru := mkLruCache cfg0 }

/-- Witness for C1: a primary-tier hit returns the cached payload and
schedules a refresh; the refresh then failing leaves the state — including
the stale entry — untouched. -/
theorem c1_witness :
    (stHit.cacheEnabled = true ∧
      redisGet stHit.redis (cacheKey cfg0 "weather today" []) 0 = some payload0) ∧
    searchHandler cfg0 stHit "weather today" [] false (.error "refresh failed")
        none 0 =
      ⟨.ok payload0, stHit,
        some (.toRedis (cacheKey cfg0 "weather today" [])
          (buildParams cfg0 "weather today" [])),
        [.opGet (cacheKey cfg0 "weather today" [])]⟩ ∧
    applyRefresh cfg0 stHit
        (.toRedis (cacheKey cfg0 "weather today" [])
          (buildParams cfg0 "weather today" []))
        (.error "refresh failed") false 5 = (stHit, []) :=
  ⟨⟨rfl, by rfl⟩,
    (c1_hit_stale_while_revalidate cfg0 stHit "weather today" [] 0).1
      (.error "refresh failed") none payload0 rfl (by rfl),
    ((c1_hit_stale_while_revalidate cfg0 stHit "weather today" [] 0).2.2.1
      (cacheKey cfg0 "weather today" []) (buildParams cfg0 "weather today" [])
      "refresh failed" false 5).1⟩

/-- C2 amended: for a request whose key is absent from both tiers (primary
cache healthy), the handler invokes the circuit breaker synchronously; on
success it stores the result in the primary tier with the configured
`CACHE_TTL` and returns exactly that payload; a second identical request
within the TTL is served from the cache — its response is independent of
its own upstream-fire parameter — but it does issue a non-blocking
background refresh through the breaker (so the upstream IS called a second
time, just not awaited); on failure (circuit-open and timeout included,
all surfacing as the breaker's rejection) the error propagates to the
caller and nothing is written to either tier. -/
theorem c2_miss_sync_fetch (cfg : Config) (st : AppState) (q : String)
    (query : List (String × String)) (now : Nat)
    (hen : st.cacheEnabled = true)
    (hred : redisGet st.redis (cacheKey cfg q query) now = none)
    (hlru : (st.lru.get (cacheKey cfg q query) now).1 = none) :
    (∀ d, searchHandler cfg st q query false (.ok d) none now =
        ⟨.ok d,
          { st with
            lru := (st.lru.get (cacheKey cfg q query) now).2,
            redis := redisSet st.redis (cacheKey cfg q query) d cfg.CACHE_TTL now },
          none,
          [.opGet (cacheKey cfg q query), .opSet (cacheKey cfg q query)]⟩) ∧
    (∀ d now2, now2 < now + cfg.CACHE_TTL →
      redisGet (redisSet st.redis (cacheKey cfg q query) d cfg.CACHE_TTL now)
        (cacheKey cfg q query) now2 = some d) ∧
    (∀ d fire2 sf2 now2, now2 < now + cfg.CACHE_TTL →
      searchHandler cfg (searchHandler cfg st q query false (.ok d) none now).state
          q query false fire2 sf2 now2 =
        ⟨.ok d, (searchHandler cfg st q query false (.ok d) none now).state,
          some (.toRedis (cacheKey cfg q query) (buildParams cfg q query)),
          [.opGet (cacheKey cfg q query)]⟩) ∧
    (∀ msg sf, searchHandler cfg st q query false (.error msg) sf now =
        ⟨.serverError msg,
          { st with lru := (st.lru.get (cacheKey cfg q query) now).2 },
          none, [.opGet (cacheKey cfg q query)]⟩) := by
  have h1 : ∀ d, searchHandler cfg st q query false (.ok d) none now =
      ⟨.ok d,
        { st with
          lru := (st.lru.get (cacheKey cfg q query) now).2,
          redis := redisSet st.redis (cacheKey cfg q query) d cfg.CACHE_TTL now },
        none,
        [.opGet (cacheKey cfg q query), .opSet (cacheKey cfg q query)]⟩ := by
    intro d
    simp [searchHandler, searchMiss, hen, hred, hlru]
  refine ⟨h1, fun d now2 hlt => redisGet_redisSet_self _ _ _ _ _ _ hlt, ?_, ?_⟩
  · intro d fire2 sf2 now2 hlt
    rw [h1 d]
    have hred2 : redisGet
        (redisSet st.redis (cacheKey cfg q query) d cfg.CACHE_TTL now)
        (cacheKey cfg q query) now2 = some d :=
      redisGet_redisSet_self _ _ _ _ _ _ hlt
    simp [searchHandler, hen, hred2]
  · intro msg sf
    simp [searchHandler, searchMiss, hen, hred, hlru]

/-- The state after a first miss-path request against the freshly started
app (primary cache healthy, upstream succeeding). -/
def c2state1 : AppState :=
  (searchHandler cfg0 (createApp cfg0 true) "weather today" [] false
    (.ok payload0) none 0).state

/-- C2 counterexample: the second identical request within the TTL is served
from the cache (response is the cached payload) but, contrary to the claim,
it does NOT go without a second upstream call: it schedules a background
refresh through the circuit breaker, and the breaker — Closed at that
point — contacts the upstream when that refresh call fires. -/
theorem c2_counterexample :
    (searchHandler cfg0 c2state1 "weather today" [] false (.ok payload0) none 1).response =
      .ok payload0 ∧
    (searchHandler cfg0 c2state1 "weather today" [] false (.ok payload0) none 1).refresh =
      some (.toRedis (cacheKey cfg0 "weather today" [])
        (buildParams cfg0 "weather today" [])) ∧
    (breakerFire cfg0 initBreaker 1 (.ok payload0)).1.contactedUpstream = true :=
  ⟨rfl, rfl, rfl⟩

/-- Witness for C2's amended claim at concrete inputs: first request misses,
fetches upstream, stores and returns the payload; the second request one
tick later is a cache hit with a scheduled background refresh; a failing
first fetch propagates the breaker error and writes nothing. -/
theorem c2_witness :
    ((createApp cfg0 true).cacheEnabled = true ∧
      redisGet (createApp cfg0 true).redis (cacheKey cfg0 "weather today" []) 0 = none ∧
      ((createApp cfg0 true).lru.get (cacheKey cfg0 "weather today" []) 0).1 = none ∧
      (1 : Nat) < 0 + cfg0.CACHE_TTL) ∧
    searchHandler cfg0 c2state1 "weather today" [] false (.error fallbackMessage)
        none 1 =
      ⟨.ok payload0, c2state1,
        some (.toRedis (cacheKey cfg0 "weather today" [])
          (buildParams cfg0 "weather today" [])),
        [.opGet (cacheKey cfg0 "weather today" [])]⟩ ∧
    searchHandler cfg0 (createApp cfg0 true) "weather today" [] false
        (.error fallbackMessage) none 0 =
      ⟨.serverError fallbackMessage,
        { createApp cfg0 true with
          lru := ((createApp cfg0 true).lru.get (cacheKey cfg0 "weather today" []) 0).2 },
        none, [.opGet (cacheKey cfg0 "weather today" [])]⟩ :=
  ⟨⟨rfl, rfl, rfl, by decide⟩,
    (c2_miss_sync_fetch cfg0 (createApp cfg0 true) "weather today" [] 0 rfl rfl
        rfl).2.2.1 payload0 (.error fallbackMessage) none 1 (by decide),
    (c2_miss_sync_fetch cfg0 (createApp cfg0 true) "weather today" [] 0 rfl rfl
        rfl).2.2.2 fallbackMessage none⟩

/-- With the cache disabled, a single handler run issues no primary-cache
operation, leaves the flag down, and never schedules a primary-tier
refresh. -/
theorem searchHandler_disabled (cfg : Config) (st : AppState) (q : String)
    (query : List (String × String)) (gf : Bool) (fire : Except String Json)
    (sf : Option String) (now : Nat) (h : st.cacheEnabled = false) :
    (searchHandler cfg st q query gf fire sf now).redisOps = [] ∧
    (searchHandler cfg st q query gf fire sf now).state.cacheEnabled = false ∧
    ∀ k p, (searchHandler cfg st q query gf fire sf now).refresh ≠
      some (.toRedis k p) := by
  rcases hl : (st.lru.get (cacheKey cfg q query) now).1 with _ | v
  · cases fire with
    | error m => refine ⟨?_, ?_, ?_⟩ <;> simp [searchHandler, searchMiss, h, hl]
    | ok d => refine ⟨?_, ?_, ?_⟩ <;> simp [searchHandler, searchMiss, h, hl]
  · by_cases ht : v.truthy
    · refine ⟨?_, ?_, ?_⟩ <;> simp [searchHandler, h, hl, ht]
    · cases fire with
      | error m =>
        refine ⟨?_, ?_, ?_⟩ <;> simp [searchHandler, searchMiss, h, hl, ht]
      | ok d =>
        refine ⟨?_, ?_, ?_⟩ <;> simp [searchHandler, searchMiss, h, hl, ht]

/-- A fallback-tier refresh issues no primary-cache operation and does not
touch the degraded flag. -/
theorem applyRefresh_toLru (cfg : Config) (st : AppState) (k : String)
    (p : List (String × String)) (f : Except String Json) (sf : Bool)
    (n : Nat) :
    (applyRefresh cfg st (.toLru k p) f sf n).2 = [] ∧
    (applyRefresh cfg st (.toLru k p) f sf n).1.cacheEnabled =
      st.cacheEnabled := by
  cases f <;> simp [applyRefresh]

/-- With the cache disabled, one full request (handler plus background
refresh) issues no primary-cache operation and leaves the flag down. -/
theorem runRequest_disabled (cfg : Config) (st : AppState) (i : ReqInput)
    (h : st.cacheEnabled = false) :
    (runRequest cfg st i).1.cacheEnabled = false ∧
    (runRequest cfg st i).2.2 = [] := by
  have hs := searchHandler_disabled cfg st i.q i.query i.redisGetFails i.fire
    i.redisSetFail i.now h
  cases hr : (searchHandler cfg st i.q i.query i.redisGetFails i.fire
      i.redisSetFail i.now).refresh with
  | none =>
    refine ⟨?_, ?_⟩ <;> simp only [runRequest, hr]
    · exact hs.2.1
    · exact hs.1
  | some rf =>
    cases rf with
    | toRedis k p => exact absurd hr (hs.2.2 k p)
    | toLru k p =>
      have ha := applyRefresh_toLru cfg
        (searchHandler cfg st i.q i.query i.redisGetFails i.fire
          i.redisSetFail i.now).state k p i.refreshFire i.refreshSetFails
        i.refreshNow
      refine ⟨?_, ?_⟩ <;> simp only [runRequest, hr]
      · rw [ha.2]; exact hs.2.1
      · rw [hs.1, ha.1]; rfl

/-- With the cache disabled, any sequence of requests issues no
primary-cache operation and the flag stays down for the process
lifetime. -/
theorem runRequests_disabled (cfg : Config) (l : List ReqInput)
    (st : AppState) (h : st.cacheEnabled = false) :
    (runRequests cfg st l).1.cacheEnabled = false ∧
    (runRequests cfg st l).2 = [] := by
  induction l generalizing st with
  | nil => exact ⟨h, rfl⟩
  | cons i rest ih =>
    have hr := runRequest_disabled cfg st i h
    have ht := ih (runRequest cfg st i).1 hr.1
    refine ⟨?_, ?_⟩ <;> simp only [runRequests]
    · exact ht.1
    · rw [hr.2, ht.2]; rfl

/-- C6: if the startup connection attempt to the primary cache fails,
`createApp` lowers the `cacheEnabled` flag; from such a state, every
request over the rest of the process lifetime issues no primary-cache
operation (no get, no set — there is no reconnection operation anywhere in
the pipeline) and the flag is never reset; meanwhile every get/set is
served by the fallback LRU tier and `fetch` still returns correct values:
a fallback hit answers with the stored value and a miss fetches upstream,
answers with the fetched payload and stores it in the fallback tier. -/
theorem c6_degraded_cache_forever (cfg : Config) (l : List ReqInput)
    (st : AppState) (q : String) (query : List (String × String))
    (now : Nat) :
    (createApp cfg false).cacheEnabled = false ∧
    (st.cacheEnabled = false →
      (runRequests cfg st l).1.cacheEnabled = false ∧
      (runRequests cfg st l).2 = []) ∧
    (st.cacheEnabled = false →
      ∀ fire sf lruv, (st.lru.get (cacheKey cfg q query) now).1 = some lruv →
        lruv.truthy = true →
        (searchHandler cfg st q query false fire sf now).response = .ok lruv) ∧
    (st.cacheEnabled = false →
      ∀ d sf, (st.lru.get (cacheKey cfg q query) now).1 = none →
        (searchHandler cfg st q query false (.ok d) sf now).response = .ok d ∧
        (searchHandler cfg st q query false (.ok d) sf now).state.lru =
          ((st.lru.get (cacheKey cfg q query) now).2).set
            (cacheKey cfg q query) d now) := by
  refine ⟨rfl, fun h => runRequests_disabled cfg l st h, ?_, ?_⟩
  · intro h fire sf lruv hl ht
    simp [searchHandler, h, hl, ht]
  · intro h d sf hl
    constructor <;> simp [searchHandler, searchMiss, h, hl]

/-- Witness for C6: starting with a failed primary-cache connection, a
request sequence issues no primary-cache operation, the flag stays down,
and a degraded-mode miss still returns the upstream payload. -/
theorem c6_witness :
    (runRequests cfg0 (createApp cfg0 false) [req0, req0]).1.cacheEnabled = false ∧
    (runRequests cfg0 (createApp cfg0 false) [req0, req0]).2 = [] ∧
    (searchHandler cfg0 (createApp cfg0 false) "weather today" [] false
      (.ok payload0) none 0).response = .ok payload0 :=
  ⟨((c6_degraded_cache_forever cfg0 [req0, req0] (createApp cfg0 false)
      "weather today" [] 0).2.1 rfl).1,
   ((c6_degraded_cache_forever cfg0 [req0, req0] (createApp cfg0 false)
      "weather today" [] 0).2.1 rfl).2,
   ((c6_degraded_cache_forever cfg0 [req0, req0] (createApp cfg0 false)
      "weather today" [] 0).2.2.2 rfl payload0 none rfl).1⟩

/-- A healthy-flag state whose fallback tier holds the witness entry. -/
def stHit7 : AppState :=
  { cacheEnabled := true, redis := [],
    lru := (mkLruCache cfg0).set (cacheKey cfg0 "weather today" []) payload0 0 }

/-- C7 counterexample: a failure of an individual primary-cache operation
CAN surface to the caller.  Concretely: on a fresh healthy-cache state with
both tiers empty, the upstream fetch succeeds but the miss-path
`await redisClient.set` (line 337, not inside any try/catch) rejects — the
caller receives the error response instead of the fetched payload. -/
theorem c7_counterexample :
    (searchHandler cfg0 (createApp cfg0 true) "weather today" [] false
      (.ok payload0) (some "redis write failed") 0).response =
      .serverError "redis write failed" := rfl

/-- C7 amended: a failure of a primary-cache GET is recovered locally and
never surfaces — the pipeline falls back silently to the LRU tier (hit) or
to the upstream call (miss) and still returns a normal result; a failure
of a primary-cache SET during a background refresh is likewise swallowed,
leaving the state untouched; but a failure of the primary-cache SET on the
synchronous miss path propagates an error response to the caller. -/
theorem c7_cache_failure_paths (cfg : Config) (st : AppState) (q : String)
    (query : List (String × String)) (now : Nat)
    (hen : st.cacheEnabled = true) :
    (∀ fire sf lruv, (st.lru.get (cacheKey cfg q query) now).1 = some lruv →
      lruv.truthy = true →
      (searchHandler cfg st q query true fire sf now).response = .ok lruv) ∧
    (∀ d, (st.lru.get (cacheKey cfg q query) now).1 = none →
      (searchHandler cfg st q query true (.ok d) none now).response = .ok d) ∧
    (∀ key params d now2,
      applyRefresh cfg st (.toRedis key params) (.ok d) true now2 =
        (st, [.opSet key])) ∧
    (∀ d msg, redisGet st.redis (cacheKey cfg q query) now = none →
      (st.lru.get (cacheKey cfg q query) now).1 = none →
      (searchHandler cfg st q query false (.ok d) (some msg) now).response =
        .serverError msg) := by
  refine ⟨?_, ?_, fun key params d now2 => rfl, ?_⟩
  · intro fire sf lruv hl ht
    simp [searchHandler, hl, ht]
  · intro d hl
    simp [searchHandler, searchMiss, hen, hl]
  · intro d msg hred hl
    simp [searchHandler, searchMiss, hen, hred, hl]

/-- Witness for C7's amended claim: with the primary GET failing, a
fallback-tier hit still answers normally, and so does a miss that fetches
upstream; a background-refresh SET failure is swallowed. -/
theorem c7_witness :
    ((stHit7.lru.get (cacheKey cfg0 "weather today" []) 0).1 = some payload0 ∧
      Json.truthy payload0 = true ∧
      (searchHandler cfg0 stHit7 "weather today" [] true (.error fallbackMessage)
        none 0).response = .ok payload0) ∧
    ((createApp cfg0 true).lru.get (cacheKey cfg0 "weather today" []) 0).1 = none ∧
    (searchHandler cfg0 (createApp cfg0 true) "weather today" [] true
      (.ok payload0) none 0).response = .ok payload0 ∧
    applyRefresh cfg0 (createApp cfg0 true)
        (.toRedis (cacheKey cfg0 "weather today" []) []) (.ok payload0) true 5 =
      (createApp cfg0 true, [.opSet (cacheKey cfg0 "weather today" [])]) :=
  ⟨⟨by rfl, rfl,
     (c7_cache_failure_paths cfg0 stHit7 "weather today" [] 0 rfl).1
       (.error fallbackMessage) none payload0 (by rfl) rfl⟩,
   rfl,
   (c7_cache_failure_paths cfg0 (createApp cfg0 true) "weather today" [] 0
     rfl).2.1 payload0 rfl,
   (c7_cache_failure_paths cfg0 (createApp cfg0 true) "weather today" [] 0
     rfl).2.2.1 (cacheKey cfg0 "weather today" []) [] payload0 5⟩

end GSMcp

